/-
Verification of the task-execution core of Py-Assistant.

Shallow embedding of:
  * core/lane_queue.py    (WAQStorage, LaneQueue)
  * mcp/mcp_router.py     (MCPRouter)
  * core/agent_spawner.py (AgentSpawner.spawn and the sub-agent tool loop)
  * core/assistant.py     (Assistant.process tool selection and final message)
  * core/plugin_manager.py (PluginManager discovery and install_from_github)

File systems are modelled as association lists from filename to parsed
content, Python dicts as insertion-ordered association lists, exceptions as
Except, and the asyncio event loop of lane_queue.py as an explicit task list
with a resume-one-task step function.
-/
import Mathlib

/-- A single-quote character, used inside the messages the code builds. -/
def sQuote : String := "\x27"

/-- Python `dict` assignment `d[k] = v`: replaces in place when the key exists
(keeping its insertion position, as CPython dicts do), otherwise appends. -/
def dictInsert {α : Type} : List (String × α) → String → α → List (String × α)
  | [], k, v => [(k, v)]
  | (k', v') :: rest, k, v =>
    if k' = k then (k', v) :: rest else (k', v') :: dictInsert rest k v

/-- Python `d.get(k)` / `d[k]` on a dict modelled as an association list. -/
def dictLookup {α : Type} : List (String × α) → String → Option α
  | [], _ => none
  | (k', v') :: rest, k => if k' = k then some v' else dictLookup rest k

theorem dictLookup_dictInsert_self {α : Type} (st : List (String × α)) (k : String) (v : α) :
    dictLookup (dictInsert st k v) k = some v := by
  induction st with
  | nil => simp [dictInsert, dictLookup]
  | cons p rest ih =>
    obtain ⟨k', v'⟩ := p
    by_cases h : k' = k <;> simp [dictInsert, dictLookup, h, ih]

theorem self_mem_dictInsert {α : Type} (st : List (String × α)) (k : String) (v : α) :
    (k, v) ∈ dictInsert st k v := by
  induction st with
  | nil => simp [dictInsert]
  | cons p rest ih =>
    obtain ⟨k', v'⟩ := p
    by_cases h : k' = k <;> simp [dictInsert, h, ih]

theorem mem_dictInsert {α : Type} {p : String × α} {st : List (String × α)} {k : String}
    {v : α} (hp : p ∈ dictInsert st k v) : p = (k, v) ∨ p ∈ st := by
  induction st with
  | nil => simpa [dictInsert] using hp
  | cons q rest ih =>
    obtain ⟨k', v'⟩ := q
    by_cases h : k' = k
    · simp only [dictInsert, if_pos h] at hp
      rw [List.mem_cons] at hp
      rcases hp with hp | hp
      · left; rw [hp, h]
      · right; exact List.mem_cons_of_mem _ hp
    · simp only [dictInsert, if_neg h] at hp
      rw [List.mem_cons] at hp
      rcases hp with hp | hp
      · right; rw [hp]; exact List.mem_cons_self _ _
      · rcases ih hp with h1 | h1
        · left; exact h1
        · right; exact List.mem_cons_of_mem _ h1

theorem dictLookup_isSome_dictInsert {α : Type} (st : List (String × α)) (k k' : String)
    (v : α) (h : (dictLookup st k).isSome = true) :
    (dictLookup (dictInsert st k' v) k).isSome = true := by
  induction st with
  | nil => simp [dictLookup] at h
  | cons p rest ih =>
    obtain ⟨k0, v0⟩ := p
    by_cases hk : k0 = k'
    · by_cases hkk : k0 = k <;> simp_all [dictInsert, dictLookup, hk, hkk]
    · by_cases hkk : k0 = k <;> simp_all [dictInsert, dictLookup, hk, hkk]

/- ------------------------------------------------------------------------
Write-Ahead Queue storage (core/lane_queue.py, class WAQStorage)
------------------------------------------------------------------------ -/

/-- The JSON record written for each pending item (lane_queue.py line 65):
`{"waq_id": ..., "lane_id": ..., "payload": ..., "ts": time.time()}`. -/
structure WAQItem where
  waq_id : String
  lane_id : String
  payload : String
  ts : Nat
  deriving DecidableEq, Repr

/-- The WAQ directory on disk, filename to parsed JSON content; `none` stands for
a file whose content does not parse (skipped by `load_orphans`). -/
abbrev WAQDir := List (String × Option WAQItem)

/-- The id format of lane_queue.py line 64:
`f"{lane_id}__{int(time.time() * 1000)}__{uuid.uuid4().hex[:8]}"`. -/
def mkWaqId (lane_id : String) (now_ms : Nat) (uuid8 : String) : String :=
  lane_id ++ "__" ++ toString now_ms ++ "__" ++ uuid8

/-- `WAQStorage.write` (lane_queue.py lines 53-72), success path of its `try`:
persists the record as `<waq_id>.json` and returns the id. The clock readings and
the uuid suffix are explicit inputs. `write_text` overwrites an existing file of
the same name, hence `dictInsert`. -/
def WAQStorage.write (fs : WAQDir) (lane_id payload : String)
    (now_ms ts : Nat) (uuid8 : String) : String × WAQDir :=
  let waq_id := mkWaqId lane_id now_ms uuid8
  (waq_id, dictInsert fs (waq_id ++ ".json") (some ⟨waq_id, lane_id, payload, ts⟩))

/-- `WAQStorage.complete` (lines 74-81): `unlink(missing_ok=True)` of `<waq_id>.json`;
removing a missing id is a no-op. -/
def WAQStorage.complete (fs : WAQDir) (waq_id : String) : WAQDir :=
  fs.filter (fun p => p.1 != waq_id ++ ".json")

/-- `WAQStorage.load_orphans` (lines 83-100): parse every `*.json` file, skip the
unreadable ones, and sort ascending by `ts`. -/
def WAQStorage.load_orphans (fs : WAQDir) : List WAQItem :=
  (fs.filterMap Prod.snd).insertionSort (fun a b => a.ts ≤ b.ts)

/- ------------------------------------------------------------------------
The two callback wrappers that complete a WAQ record
(core/lane_queue.py, LaneQueue.enqueue and LaneQueue.recover_orphans)
------------------------------------------------------------------------ -/

/-- `_waq_callback` built inside `LaneQueue.enqueue` (lines 187-192):
`try: await callback(p)` / `finally: complete(waq_id)`. Returns the WAQ directory
after the run and the exception that escapes to the worker, if any. -/
def enqueue_waq_callback (fs : WAQDir) (waq_id : String)
    (callback : String → Except String Unit) (p : String) : WAQDir × Option String :=
  match callback p with
  | .ok _ => (WAQStorage.complete fs waq_id, none)
  | .error e => (WAQStorage.complete fs waq_id, some e)

/-- `_wrapped` built inside `LaneQueue.recover_orphans` (lines 158-161):
`await _cb(p); self._waq.complete(_waq_id)` — there is no try/finally here, so when
the callback raises, `complete` is never reached and the record stays on disk. -/
def recover_wrapped_callback (fs : WAQDir) (waq_id : String)
    (callback : String → Except String Unit) (p : String) : WAQDir × Option String :=
  match callback p with
  | .ok _ => (WAQStorage.complete fs waq_id, none)
  | .error e => (fs, some e)

/-- A handler that always raises, as a poison work item's handler would. -/
def poisonHandler : String → Except String Unit := fun _ => .error "poison"

/- ------------------------------------------------------------------------
Claims C2 and C3
------------------------------------------------------------------------ -/

/-- C2: round-trip of the durable queue store. After `write(lane, payload)` returns
an id (file write succeeded), a fresh `load_orphans` returns a record with that id,
lane and payload; after `complete(id)`, no returned record carries that id. The
freshness hypothesis states that the uuid-suffixed id is not already present, which
is what the uuid in the filename is for. -/
theorem waq_write_loadOrphans_complete_roundtrip
    (fs : WAQDir) (lane_id payload : String) (now_ms ts : Nat) (uuid8 : String)
    (hfresh : ∀ p ∈ fs, ∀ it : WAQItem, p.2 = some it →
        it.waq_id ≠ mkWaqId lane_id now_ms uuid8) :
    (∃ r ∈ WAQStorage.load_orphans (WAQStorage.write fs lane_id payload now_ms ts uuid8).2,
        r.waq_id = (WAQStorage.write fs lane_id payload now_ms ts uuid8).1
        ∧ r.lane_id = lane_id ∧ r.payload = payload)
    ∧ (∀ r ∈ WAQStorage.load_orphans
          (WAQStorage.complete (WAQStorage.write fs lane_id payload now_ms ts uuid8).2
            (WAQStorage.write fs lane_id payload now_ms ts uuid8).1),
        r.waq_id ≠ (WAQStorage.write fs lane_id payload now_ms ts uuid8).1) := by
  constructor
  · refine ⟨⟨mkWaqId lane_id now_ms uuid8, lane_id, payload, ts⟩, ?_, rfl, rfl, rfl⟩
    unfold WAQStorage.load_orphans WAQStorage.write
    rw [List.mem_insertionSort]
    rw [List.mem_filterMap]
    exact ⟨(mkWaqId lane_id now_ms uuid8 ++ ".json",
      some ⟨mkWaqId lane_id now_ms uuid8, lane_id, payload, ts⟩),
      self_mem_dictInsert _ _ _, rfl⟩
  · intro r hr
    unfold WAQStorage.load_orphans WAQStorage.complete WAQStorage.write at hr
    rw [List.mem_insertionSort, List.mem_filterMap] at hr
    obtain ⟨p, hp, hps⟩ := hr
    rw [List.mem_filter] at hp
    obtain ⟨hpmem, hpname⟩ := hp
    rcases mem_dictInsert hpmem with hpeq | hpfs
    · exfalso
      apply absurd hpname
      rw [hpeq]
      simp
    · exact hfresh p hpfs r hps

/-- Witness for C2 at a concrete store, lane and payload. -/
theorem waq_write_loadOrphans_complete_roundtrip_witness :
    (∀ p ∈ ([] : WAQDir), ∀ it : WAQItem, p.2 = some it →
        it.waq_id ≠ mkWaqId "7" 1700 "abcd1234")
    ∧ ((∃ r ∈ WAQStorage.load_orphans (WAQStorage.write [] "7" "hola" 1700 1 "abcd1234").2,
        r.waq_id = (WAQStorage.write [] "7" "hola" 1700 1 "abcd1234").1
        ∧ r.lane_id = "7" ∧ r.payload = "hola")
    ∧ (∀ r ∈ WAQStorage.load_orphans
          (WAQStorage.complete (WAQStorage.write [] "7" "hola" 1700 1 "abcd1234").2
            (WAQStorage.write [] "7" "hola" 1700 1 "abcd1234").1),
        r.waq_id ≠ (WAQStorage.write [] "7" "hola" 1700 1 "abcd1234").1)) :=
  ⟨by simp, waq_write_loadOrphans_complete_roundtrip [] "7" "hola" 1700 1 "abcd1234" (by simp)⟩

/-- C3 (the code diverges): on the crash-recovery path of `recover_orphans`, a
handler that raises leaves the WAQ record on disk — the wrapper has no try/finally —
so the poison item is found again by the next `load_orphans` and is redelivered on
every restart; the normal `enqueue` path, by contrast, completes the record. -/
theorem recover_orphans_poison_item_never_completed :
    (recover_wrapped_callback (WAQStorage.write [] "lane1" "boom" 1000 1 "aaaa1111").2
        (WAQStorage.write [] "lane1" "boom" 1000 1 "aaaa1111").1 poisonHandler "boom").1
      = (WAQStorage.write [] "lane1" "boom" 1000 1 "aaaa1111").2
    ∧ (∃ r ∈ WAQStorage.load_orphans
          (recover_wrapped_callback (WAQStorage.write [] "lane1" "boom" 1000 1 "aaaa1111").2
            (WAQStorage.write [] "lane1" "boom" 1000 1 "aaaa1111").1 poisonHandler "boom").1,
        r.waq_id = (WAQStorage.write [] "lane1" "boom" 1000 1 "aaaa1111").1)
    ∧ (enqueue_waq_callback (WAQStorage.write [] "lane1" "boom" 1000 1 "aaaa1111").2
        (WAQStorage.write [] "lane1" "boom" 1000 1 "aaaa1111").1 poisonHandler "boom").1
      = [] :=
  ⟨rfl, ⟨⟨mkWaqId "lane1" 1000 "aaaa1111", "lane1", "boom", 1⟩, by decide, by decide⟩, rfl⟩

/- ------------------------------------------------------------------------
LaneQueue under the asyncio event loop (core/lane_queue.py, class LaneQueue)

The model covers one lane. `enqueue` (lines 168-199) contains no suspension
point: `WAQStorage.write` is synchronous file I/O, `Queue.put` on an unbounded
asyncio.Queue returns without yielding, and `asyncio.create_task` only
schedules the coroutine. So consecutive `enqueue` calls from one task run
atomically with respect to the event loop, and `_active` (updated only inside
`_worker`, line 206/221) is still empty while they run. `_worker` suspends
only at `await callback(payload)`; `queue.get()` is reached only when the
queue is non-empty (the `while not queue.empty()` guard) and then returns
synchronously. `resumeWorker i` is the event loop resuming task `i`: it runs
the worker until its next suspension point (the handler await) or its exit.
------------------------------------------------------------------------ -/

/-- Observable events of one lane: an item is enqueued, its handler starts,
its handler returns. -/
inductive LEvent
  | enq (x : String)
  | start (x : String)
  | laneComplete (x : String)
  deriving DecidableEq, Repr

/-- The program point of one `_worker` task: just created (before line 206),
suspended at `await callback(x)` (line 215), or returned. -/
inductive WPhase
  | created
  | awaiting (x : String)
  | finished
  deriving DecidableEq, Repr

/-- One lane of a `LaneQueue`: its asyncio.Queue, whether the lane id is in
`_active`, the `_worker` tasks created for it (in creation order), and the
event trace. -/
structure LQState where
  queue : List String
  active : Bool
  tasks : List WPhase
  events : List LEvent
  deriving DecidableEq, Repr

/-- `LaneQueue.enqueue` (lines 168-199): put the item on the lane's queue and,
if the lane id is not in `_active`, `create_task(self._worker(lane_id))`. -/
def LaneQueue.enqueue (s : LQState) (x : String) : LQState :=
  let s1 : LQState := { s with queue := s.queue ++ [x], events := s.events ++ [.enq x] }
  if s1.active then s1 else { s1 with tasks := s1.tasks ++ [.created] }

/-- The event loop resumes `_worker` task `i` (lines 201-222) and runs it to its
next suspension point or to its exit. A `created` task adds the lane to
`_active`, checks the `while` guard and either exits (discarding the lane from
`_active`) or pops the head item and starts its handler. A task suspended at
`await callback(x)` observes the handler return (exceptions are caught and
logged at line 216, so the loop continues either way), re-checks the guard and
either exits or starts the next item's handler. -/
def LaneQueue.resumeWorker (s : LQState) (i : Nat) : LQState :=
  match s.tasks.get? i with
  | none => s
  | some .finished => s
  | some .created =>
    match s.queue with
    | [] => { s with active := false, tasks := s.tasks.set i .finished }
    | x :: rest =>
      { s with active := true, queue := rest, tasks := s.tasks.set i (.awaiting x),
               events := s.events ++ [.start x] }
  | some (.awaiting x) =>
    match s.queue with
    | [] => { s with active := false, tasks := s.tasks.set i .finished,
                     events := s.events ++ [.laneComplete x] }
    | y :: rest =>
      { s with queue := rest, tasks := s.tasks.set i (.awaiting y),
               events := s.events ++ [.laneComplete x, .start y] }

/-- The FIFO contract is broken for items `a`, `b` when `a` was enqueued before
`b` yet `start b` appears in the trace with no `laneComplete a` before it. -/
def violatesLaneFifo (a b : String) (evs : List LEvent) : Bool :=
  evs.contains (.enq a) && evs.contains (.enq b) && evs.contains (.start b)
  && decide (evs.indexOf (LEvent.enq a) < evs.indexOf (LEvent.enq b))
  && !((evs.take (evs.indexOf (LEvent.start b))).contains (.laneComplete a))

/-- Two `enqueue` calls in quick succession from the same task (no yield in
between), then the event loop runs the two worker tasks both calls created:
the first worker suspends awaiting item "A"'s handler; the second worker then
pops "B" and starts its handler. -/
def burstScenario : LQState :=
  LaneQueue.resumeWorker (LaneQueue.resumeWorker
    (LaneQueue.enqueue (LaneQueue.enqueue ⟨[], false, [], []⟩ "A") "B") 0) 1

/-- C1 (the code diverges): both `enqueue` calls find the lane outside `_active`
(workers mark themselves active only once the loop first runs them, line 206),
so TWO `_worker` tasks are created for the one lane, and "B"'s handler starts
while "A"'s handler is still running — strict per-lane FIFO is violated. -/
theorem laneQueue_burst_two_workers_break_fifo :
    burstScenario.tasks.length = 2
    ∧ burstScenario.events = [.enq "A", .enq "B", .start "A", .start "B"]
    ∧ violatesLaneFifo "A" "B" burstScenario.events = true := by decide

/- ------------------------------------------------------------------------
MCPRouter (mcp/mcp_router.py)
------------------------------------------------------------------------ -/

/-- Keyword arguments passed to a tool, as name/value pairs (values kept as
strings; their interpretation is the tool's business). -/
abbrev Args := List (String × String)

/-- A registered tool implementation. Providers register string-returning
functions (capability contract `invoke(argsAsMap) -> string`); a call may raise,
which `Except.error` carries. -/
abbrev ToolFn := Args → Except String String

/-- The `"function"` part of the OpenAI-format schema built by
`MCPRouter.register` (mcp_router.py lines 54-61). -/
structure ToolSchema where
  name : String
  description : String
  parameters : String
  deriving DecidableEq, Repr

/-- One entry of `MCPRouter._tools`: `{"function": ..., "schema": ...}`. -/
structure MCPTool where
  fn : ToolFn
  schema : ToolSchema

/-- `MCPRouter._tools`, a Python dict keyed by tool name. -/
abbrev MCPRegistry := List (String × MCPTool)

/-- `MCPRouter.register` (lines 39-65): store function and schema under `name`;
a later registration of the same name replaces the earlier entry. -/
def MCPRouter.register (r : MCPRegistry) (name description parameters : String)
    (fn : ToolFn) : MCPRegistry :=
  dictInsert r name ⟨fn, ⟨name, description, parameters⟩⟩

/-- `MCPRouter.get_schemas` (lines 67-74): the schemas of all registered tools,
in registration order. -/
def MCPRouter.get_schemas (r : MCPRegistry) : List ToolSchema :=
  r.map (fun p => p.2.schema)

/-- `MCPRouter.execute` (lines 80-106): unknown names and exceptions raised by
the tool become descriptive error strings; otherwise the tool's result is
returned. -/
def MCPRouter.execute (r : MCPRegistry) (tool_name : String) (args : Args) : String :=
  match dictLookup r tool_name with
  | none => "Error: herramienta " ++ sQuote ++ tool_name ++ sQuote ++ " no encontrada."
  | some t =>
    match t.fn args with
    | .ok result => result
    | .error e => "Error ejecutando " ++ sQuote ++ tool_name ++ sQuote ++ ": " ++ e

/- ------------------------------------------------------------------------
AgentSpawner (core/agent_spawner.py)
------------------------------------------------------------------------ -/

/-- One entry of a model response's `tool_calls`:
`{"id": ..., "function": {"name": ..., "arguments": ...}}`; `arguments` is
`none` when the key is absent. -/
structure ToolCall where
  id : String
  name : String
  arguments : Option String
  deriving DecidableEq, Repr

/-- A response dict from `llm.chat`: `content` is `none` when the key is absent,
`tool_calls` is `[]` when absent or empty (both are falsy in the loop guard). -/
structure LLMResponse where
  content : Option String
  tool_calls : List ToolCall
  deriving DecidableEq, Repr

/-- A message of the conversation list handed to `llm.chat`. -/
inductive Msg
  | system (content : String)
  | user (content : String)
  | assistant (resp : LLMResponse)
  | tool (tool_call_id : String) (content : String)
  deriving DecidableEq, Repr

/-- `SubAgentConfig` (agent_spawner.py lines 35-51). -/
structure SubAgentConfig where
  name : String
  role : String
  system_prompt : String
  tools_whitelist : Option (List String)
  max_tokens : Nat
  deriving DecidableEq, Repr

/-- Python truthiness of `config.tools_whitelist`: `None` and the empty list
are both falsy. -/
def wlTruthy : Option (List String) → Bool
  | none => false
  | some l => !l.isEmpty

/-- The guard of line 377:
`if config.tools_whitelist and tool_name not in config.tools_whitelist`. -/
def wlBlocks (wl : Option (List String)) (tool_name : String) : Bool :=
  wlTruthy wl && !((wl.getD []).contains tool_name)

/-- The denial string of line 378. -/
def denialMessage (tool_name : String) : String :=
  "[DENEGADO] La herramienta " ++ sQuote ++ tool_name ++ sQuote
    ++ " no esta permitida para este rol."

/-- Lines 381-387: `raw = func_info.get("arguments") or "\x7b\x7d"` (Python `or`
treats the empty string as falsy); `json.loads` is the `jsonParse` oracle; a
parse failure or a non-dict result yields the empty argument map. -/
def parseToolArgs (jsonParse : String → Option Args) (arguments : Option String) : Args :=
  let raw := match arguments with
    | some s => if s.isEmpty then "\x7b\x7d" else s
    | none => "\x7b\x7d"
  (jsonParse raw).getD []

/-- One round of the sub-agent tool loop (lines 371-395): for each requested
call in request order, synthesize the denial string when the whitelist guard
fires, otherwise invoke `MCPRouter.execute`. Returns the tool-result messages
and the names for which `execute` was invoked. -/
def spawnRound (registry : MCPRegistry) (wl : Option (List String))
    (jsonParse : String → Option Args) : List ToolCall → List Msg × List String
  | [] => ([], [])
  | tc :: rest =>
    let tail := spawnRound registry wl jsonParse rest
    if wlBlocks wl tc.name then
      (Msg.tool tc.id (denialMessage tc.name) :: tail.1, tail.2)
    else
      (Msg.tool tc.id
          (MCPRouter.execute registry tc.name (parseToolArgs jsonParse tc.arguments))
        :: tail.1,
       tc.name :: tail.2)

/-- The sub-agent tool loop (lines 365-399), fuel = `MAX_ROUNDS - rounds`:
while the response carries tool calls and rounds remain, append the assistant
turn and the round's tool results and call `chat` again (without tools, as
line 399 does). Also returns the message sequences passed to those follow-up
`chat` calls. -/
def spawnToolLoop (chat : List Msg → Option (List ToolSchema) → LLMResponse)
    (registry : MCPRegistry) (wl : Option (List String))
    (jsonParse : String → Option Args) :
    Nat → List Msg → LLMResponse → LLMResponse × List (List Msg)
  | 0, _, resp => (resp, [])
  | fuel + 1, msgs, resp =>
    if resp.tool_calls.isEmpty then (resp, [])
    else
      let results := (spawnRound registry wl jsonParse resp.tool_calls).1
      let msgs' := msgs ++ [Msg.assistant resp] ++ results
      let next := chat msgs' none
      let rest := spawnToolLoop chat registry wl jsonParse fuel msgs' next
      (rest.1, msgs' :: rest.2)

/-- Lines 337-344: filter the registry's schemas by the role's whitelist —
with Python truthiness, so an empty whitelist behaves like `None` and yields
all tools. -/
def spawnSelectTools (wl : Option (List String)) (all_tools : List ToolSchema) :
    List ToolSchema :=
  if wlTruthy wl then all_tools.filter (fun t => (wl.getD []).contains t.name)
  else all_tools

/-- The 40-character separator line of lines 405-410. -/
def sepLine : String := String.mk (List.replicate 40 (Char.ofNat 0x2500))

/-- The fallback of line 401, used when the response has no `content` key. -/
def spawnFallback : String := "El sub-agente no produjo una respuesta."

/-- Lines 405-410: wrap the result in the labeled block
`[NAME]\n────\nresult\n────`. -/
def spawnWrap (config_name result : String) : String :=
  "[" ++ config_name.toUpper ++ "]\n" ++ sepLine ++ "\n" ++ result ++ "\n" ++ sepLine

/-- Line 401 + 405-410: `response.get("content", fallback)` — the fallback is
used only when the `content` KEY is absent; a present empty string is kept —
then wrapped. -/
def spawnResult (config_name : String) (resp : LLMResponse) : String :=
  spawnWrap config_name (resp.content.getD spawnFallback)

/-- The seed conversation of lines 346-360: the role's system prompt and the
mission as the user turn, the mission prefixed with the context block when a
context was given (Python truthiness: an empty context adds no block). -/
def spawnSeedMsgs (config : SubAgentConfig) (mission context : String) : List Msg :=
  [Msg.system config.system_prompt,
   Msg.user (if context.isEmpty then mission
     else "[CONTEXTO DE CONVERSACION RECIENTE]\n" ++ context
       ++ "\n[FIN DE CONTEXTO]\n\n" ++ mission)]

/-- The response `AgentSpawner.spawn` ends up with: the first `chat` call of
line 363 (passing `None` when the selected tool list is empty), run through the
tool loop with `MAX_ROUNDS = 5` (lines 365-399). -/
def spawnFinalResponse (chat : List Msg → Option (List ToolSchema) → LLMResponse)
    (registry : MCPRegistry) (jsonParse : String → Option Args)
    (config : SubAgentConfig) (mission context : String) : LLMResponse :=
  let tools := spawnSelectTools config.tools_whitelist (MCPRouter.get_schemas registry)
  let msgs := spawnSeedMsgs config mission context
  (spawnToolLoop chat registry config.tools_whitelist jsonParse 5 msgs
    (chat msgs (if tools.isEmpty then none else some tools))).1

/-- `AgentSpawner.spawn` (lines 308-410) after the role config was resolved:
the final response's content (fallback when the content key is absent, line
401), wrapped in the labeled block. -/
def AgentSpawner.spawn (chat : List Msg → Option (List ToolSchema) → LLMResponse)
    (registry : MCPRegistry) (jsonParse : String → Option Args)
    (config : SubAgentConfig) (mission context : String) : String :=
  spawnResult config.name (spawnFinalResponse chat registry jsonParse config mission context)

/- ------------------------------------------------------------------------
Assistant.process (core/assistant.py)
------------------------------------------------------------------------ -/

/-- The priority set of assistant.py lines 111-120. -/
def assistantPriority : List String :=
  ["obtener_fecha_hora", "guardar_nota", "buscar_notas",
   "listar_directorio", "leer_archivo", "escribir_archivo",
   "ejecutar_comando", "buscar_web", "extraer_texto_web",
   "buscar_imagen_web", "descargar_archivo", "firecrawl",
   "info_sistema", "abrir_aplicacion",
   "leer_emails", "enviar_email",
   "clima", "generar_texto", "resumir_texto", "traducir_texto",
   "buscar_archivos", "info_archivo", "listar_procesos"]

/-- Lines 104-124: the schemas the primary assistant offers to `chat` —
everything registered, but capped at `MAX_TOOLS = 20`, priority names first. -/
def assistantSelectTools (tools : List ToolSchema) : List ToolSchema :=
  if tools.length > 20 then
    ((tools.filter (fun t => assistantPriority.contains t.name))
      ++ (tools.filter (fun t => !(assistantPriority.contains t.name)))).take 20
  else tools

/-- The fallback of assistant.py line 134. -/
def assistantFallback : String := "No pude generar una respuesta."

/-- Line 134: `response.get("content", "No pude generar una respuesta.")`. -/
def assistantFinalMessage (resp : LLMResponse) : String :=
  resp.content.getD assistantFallback

/- ------------------------------------------------------------------------
Python string primitives, modelled on the character lists underlying the
strings (so that concrete witnesses evaluate inside the kernel). Patterns and
separators are non-empty at every use site below.
------------------------------------------------------------------------ -/

/-- Python `s.replace(pat, rep)`: replace all non-overlapping occurrences, left
to right. `fuel` bounds the scan; it is instantiated with the string length,
which suffices because every step consumes at least one character. -/
def replaceCharsAux (pat rep : List Char) : Nat → List Char → List Char
  | 0, s => s
  | _ + 1, [] => []
  | fuel + 1, c :: rest =>
    if pat.isPrefixOf (c :: rest) then
      rep ++ replaceCharsAux pat rep fuel ((c :: rest).drop pat.length)
    else c :: replaceCharsAux pat rep fuel rest

def pyReplace (s pat rep : String) : String :=
  String.mk (replaceCharsAux pat.data rep.data s.data.length s.data)

/-- Python `pat in s` for strings: some occurrence of `pat` starts somewhere. -/
def strContainsChars (pat : List Char) : List Char → Bool
  | [] => pat.isEmpty
  | c :: rest => pat.isPrefixOf (c :: rest) || strContainsChars pat rest

/-- Python `pat in s` on strings. -/
def strContains (s pat : String) : Bool := strContainsChars pat.data s.data

/-- Python `s.startswith(pat)`. -/
def pyStartsWith (s pat : String) : Bool := pat.data.isPrefixOf s.data

/-- Python `s.endswith(pat)`. -/
def pyEndsWith (s pat : String) : Bool := pat.data.isSuffixOf s.data

/-- Python `s.split(sep)` for a non-empty separator, accumulator-style. -/
def splitCharsAux (sep : List Char) : Nat → List Char → List Char → List (List Char)
  | 0, acc, s => [acc.reverse ++ s]
  | _ + 1, acc, [] => [acc.reverse]
  | fuel + 1, acc, c :: rest =>
    if sep.isPrefixOf (c :: rest) then
      acc.reverse :: splitCharsAux sep fuel [] ((c :: rest).drop sep.length)
    else splitCharsAux sep fuel (c :: acc) rest

def pySplit (s sep : String) : List String :=
  (splitCharsAux sep.data s.data.length [] s.data).map String.mk

/- ------------------------------------------------------------------------
PluginManager (core/plugin_manager.py)
------------------------------------------------------------------------ -/

/-- What importing a plugin file yields: the import raises, the module imports
but lacks `SKILL_NAME` or `execute`, or it is a valid module exposing a
`SKILL_NAME`. -/
inductive PluginModule
  | raises (msg : String)
  | invalid
  | valid (skill_name : String)
  deriving DecidableEq, Repr

/-- `PluginManager._plugins`: a Python dict from `SKILL_NAME` to loaded module. -/
abbrev PluginTable := List (String × PluginModule)

/-- `PluginManager._load_file` (lines 164-211): an import error is caught by the
`except` (line 209) and returns False; a module missing `SKILL_NAME` or
`execute` is skipped with a warning (lines 182-187) and returns False; a valid
module is stored under its `SKILL_NAME` and returns True. Manifest writing
(internally exception-safe), the env-var check (warning only) and MCP tool
registration (per-tool try/except) never fail the load and are outside this
state. -/
def PluginManager.load_file (st : PluginTable) (m : PluginModule) : PluginTable × Bool :=
  match m with
  | .raises _ => (st, false)
  | .invalid => (st, false)
  | .valid skill_name => (dictInsert st skill_name m, true)

/-- `PluginManager._auto_discover` (lines 157-162): walk the sorted directory
listing (given here as the input list), skip filenames starting with `_`, and
load each remaining file. -/
def PluginManager.auto_discover (files : List (String × PluginModule))
    (st : PluginTable) : PluginTable :=
  files.foldl
    (fun st f => if pyStartsWith f.1 "_" then st else (PluginManager.load_file st f.2).1) st

/-- The plugin manager's state visible to `install_from_github`: the filenames
present in `plugins_dir` and the loaded-plugin table. -/
structure PMState where
  files : List String
  plugins : PluginTable
  deriving DecidableEq, Repr

/-- The externally visible side effects of `install_from_github`. -/
inductive PMEffect
  | fetch (url : String)
  | writeFile (filename : String)
  | loadFile (filename : String)
  deriving DecidableEq, Repr

/-- Lines 334-336: blob URL to raw URL. -/
def githubRawUrl (url : String) : String :=
  pyReplace (pyReplace url "github.com" "raw.githubusercontent.com") "/blob/" "/"

/-- Line 341: `raw_url.split("/")[-1]`. -/
def derivedFilename (raw_url : String) : String :=
  (pySplit raw_url "/").getLastD ""

/-- Python `str.isalnum`: non-empty and all characters alphanumeric. -/
def pythonIsAlnum (s : String) : Bool := !s.data.isEmpty && s.data.all Char.isAlphanum

/-- Line 345: the filename with `_`, `-` and `.` removed must be alphanumeric. -/
def validPluginFilename (filename : String) : Bool :=
  pythonIsAlnum (pyReplace (pyReplace (pyReplace filename "_" "") "-" "") "." "")

/-- The already-exists message of lines 348-352. -/
def alreadyExistsMessage (filename : String) : String :=
  "El plugin " ++ sQuote ++ filename ++ sQuote ++ " ya existe. Usa reload("
    ++ sQuote ++ filename.dropRight 3 ++ sQuote ++ ") para recargarlo."

/-- `PluginManager.install_from_github` (lines 318-375). The network is the
`fetch` oracle (`Except.error` = `urlopen`/decode raised, caught at line 373);
`importContent` is what importing the downloaded source yields. Returns the
message, the new state and the side effects performed. -/
def PluginManager.install_from_github (st : PMState)
    (fetch : String → Except String String) (importContent : String → PluginModule)
    (url : String) : String × PMState × List PMEffect :=
  if pyEndsWith (githubRawUrl url) ".py" = false then
    ("La URL debe apuntar a un archivo .py.", st, [])
  else if validPluginFilename (derivedFilename (githubRawUrl url)) = false then
    ("Nombre de archivo no valido: " ++ sQuote ++ derivedFilename (githubRawUrl url) ++ sQuote,
     st, [])
  else if st.files.contains (derivedFilename (githubRawUrl url)) = true then
    (alreadyExistsMessage (derivedFilename (githubRawUrl url)), st, [])
  else
    let raw_url := githubRawUrl url
    let filename := derivedFilename raw_url
    match fetch raw_url with
    | .error e => ("Error al descargar el plugin: " ++ e, st, [.fetch raw_url])
    | .ok content =>
      if !(strContains content "SKILL_NAME") || !(strContains content "def execute") then
        ("El archivo descargado no parece ser un plugin valido (falta SKILL_NAME o def execute).",
         st, [.fetch raw_url])
      else
        let st1 : PMState := { st with files := st.files ++ [filename] }
        let loaded := PluginManager.load_file st1.plugins (importContent content)
        let st2 : PMState := { st1 with plugins := loaded.1 }
        (if loaded.2 then
            "Plugin " ++ sQuote ++ filename.dropRight 3 ++ sQuote
              ++ " instalado y cargado exitosamente."
          else "Plugin descargado pero no pudo cargarse. Revisa los logs.",
         st2, [.fetch raw_url, .writeFile filename, .loadFile filename])

/- ------------------------------------------------------------------------
Claims C4, C5, C8
------------------------------------------------------------------------ -/

theorem spawnRound_exec_not_blocked (registry : MCPRegistry) (wl : Option (List String))
    (jsonParse : String → Option Args) :
    ∀ tcs n, n ∈ (spawnRound registry wl jsonParse tcs).2 → wlBlocks wl n = false := by
  intro tcs
  induction tcs with
  | nil => intro n h; simp [spawnRound] at h
  | cons tc rest ih =>
    intro n h
    by_cases hb : wlBlocks wl tc.name = true
    · simp only [spawnRound, hb, if_true] at h
      exact ih n h
    · simp only [spawnRound, hb, if_false, Bool.false_eq_true, List.mem_cons] at h
      rcases h with h | h
      · rw [h]; exact Bool.eq_false_iff.mpr hb
      · exact ih n h

theorem spawnRound_denial_mem (registry : MCPRegistry) (wl : Option (List String))
    (jsonParse : String → Option Args) {tcs : List ToolCall} {tc : ToolCall}
    (hmem : tc ∈ tcs) (hb : wlBlocks wl tc.name = true) :
    Msg.tool tc.id (denialMessage tc.name) ∈ (spawnRound registry wl jsonParse tcs).1 := by
  induction tcs with
  | nil => cases hmem
  | cons hd rest ih =>
    rw [List.mem_cons] at hmem
    by_cases hbh : wlBlocks wl hd.name = true
    · simp only [spawnRound, hbh, if_true, List.mem_cons]
      rcases hmem with h | h
      · left; rw [h]
      · right; exact ih h
    · rcases hmem with h | h
      · subst h; exact absurd hb hbh
      · simp only [spawnRound, hbh, if_false, Bool.false_eq_true, List.mem_cons]
        right; exact ih h

/-- C4 (amended): for a sub-agent role whose tools whitelist is non-null AND
non-empty, a requested call whose name is outside the whitelist never reaches
`MCPRouter.execute`; a denial tool message is appended for it instead.
(The non-empty condition is forced: Python truthiness makes an empty whitelist
behave as if no whitelist were set — see the counterexample.) -/
theorem spawn_whitelist_blocks_execute
    (registry : MCPRegistry) (wl : List String) (jsonParse : String → Option Args)
    (tcs : List ToolCall) (tc : ToolCall)
    (hne : wl ≠ []) (hmem : tc ∈ tcs) (hout : tc.name ∉ wl) :
    tc.name ∉ (spawnRound registry (some wl) jsonParse tcs).2
    ∧ Msg.tool tc.id (denialMessage tc.name)
        ∈ (spawnRound registry (some wl) jsonParse tcs).1 := by
  have hie : wl.isEmpty = false := by
    cases wl with
    | nil => exact absurd rfl hne
    | cons a l => rfl
  have hb : wlBlocks (some wl) tc.name = true := by
    simp [wlBlocks, wlTruthy, hie, hout]
  constructor
  · intro hc
    have := spawnRound_exec_not_blocked registry (some wl) jsonParse tcs tc.name hc
    rw [hb] at this
    cases this
  · exact spawnRound_denial_mem registry (some wl) jsonParse hmem hb

/-- Witness for C4 at a concrete registry, whitelist and call. -/
theorem spawn_whitelist_blocks_execute_witness :
    (["a"] : List String) ≠ []
    ∧ (⟨"call1", "b", none⟩ : ToolCall) ∈ [(⟨"call1", "b", none⟩ : ToolCall)]
    ∧ ("b" : String) ∉ (["a"] : List String)
    ∧ ("b" : String) ∉ (spawnRound [] (some ["a"]) (fun _ => none)
        [⟨"call1", "b", none⟩]).2
    ∧ Msg.tool "call1" (denialMessage "b")
        ∈ (spawnRound [] (some ["a"]) (fun _ => none) [⟨"call1", "b", none⟩]).1 := by
  refine ⟨by decide, by decide, by decide, ?_⟩
  exact spawn_whitelist_blocks_execute [] ["a"] (fun _ => none)
    [⟨"call1", "b", none⟩] ⟨"call1", "b", none⟩ (by decide) (by decide) (by decide)

/-- A one-tool registry used in concrete counterexamples. -/
def demoRegistryB : MCPRegistry := [("b", ⟨fun _ => Except.ok "ran b", ⟨"b", "demo", ""⟩⟩)]

/-- C4 counterexample: a role whose whitelist is non-null but EMPTY (`some []`)
does not block anything — `if config.tools_whitelist and ...` is skipped for a
falsy empty list — so the out-of-whitelist call "b" IS executed through
`MCPRouter.execute`. -/
theorem spawn_empty_whitelist_executes_tool :
    some ([] : List String) ≠ (none : Option (List String))
    ∧ ("b" : String) ∉ ([] : List String)
    ∧ (spawnRound demoRegistryB (some []) (fun _ => none) [⟨"call1", "b", none⟩]).2
        = ["b"] := by
  refine ⟨by simp, by simp, rfl⟩

/-- C5 (amended): for EVERY requested call of the round that falls to the
whitelist guard (whitelist non-null and non-empty, name outside it), the
tool-result message synthesized for it carries exactly the string
`[DENEGADO] La herramienta <sq><name><sq> no esta permitida para este rol.`,
and a message with that exact content is part of the conversation handed to
the next `chat` call. -/
theorem spawn_denial_string_passed_to_next_chat
    (chat : List Msg → Option (List ToolSchema) → LLMResponse) (registry : MCPRegistry)
    (wl : List String) (jsonParse : String → Option Args) (msgs : List Msg)
    (resp : LLMResponse) (tc : ToolCall) (fuel : Nat)
    (hne : wl ≠ []) (hout : tc.name ∉ wl) (hmem : tc ∈ resp.tool_calls) :
    Msg.tool tc.id (denialMessage tc.name)
        ∈ (spawnRound registry (some wl) jsonParse resp.tool_calls).1
    ∧ ∃ sent ∈ (spawnToolLoop chat registry (some wl) jsonParse (fuel + 1) msgs resp).2,
        Msg.tool tc.id (denialMessage tc.name) ∈ sent := by
  have hie : wl.isEmpty = false := by
    cases wl with
    | nil => exact absurd rfl hne
    | cons a l => rfl
  have hb : wlBlocks (some wl) tc.name = true := by
    simp [wlBlocks, wlTruthy, hie, hout]
  have hd : Msg.tool tc.id (denialMessage tc.name)
      ∈ (spawnRound registry (some wl) jsonParse resp.tool_calls).1 :=
    spawnRound_denial_mem registry (some wl) jsonParse hmem hb
  refine ⟨hd, ?_⟩
  have hnonempty : resp.tool_calls.isEmpty = false := by
    cases h : resp.tool_calls with
    | nil => rw [h] at hmem; cases hmem
    | cons a l => rfl
  refine ⟨msgs ++ [Msg.assistant resp]
      ++ (spawnRound registry (some wl) jsonParse resp.tool_calls).1, ?_, ?_⟩
  · simp [spawnToolLoop, hnonempty]
  · exact List.mem_append_right _ hd

/-- Witness for C5 at a concrete multi-call round: the model requests an
in-whitelist call and the blocked "delete_everything" in the same round. -/
theorem spawn_denial_string_passed_to_next_chat_witness :
    (["search"] : List String) ≠ []
    ∧ ("delete_everything" : String) ∉ (["search"] : List String)
    ∧ (⟨"c1", "delete_everything", none⟩ : ToolCall)
        ∈ (LLMResponse.mk none
            [⟨"c0", "search", none⟩, ⟨"c1", "delete_everything", none⟩]).tool_calls
    ∧ (Msg.tool "c1" (denialMessage "delete_everything")
        ∈ (spawnRound demoRegistryB (some ["search"]) (fun _ => none)
            (LLMResponse.mk none
              [⟨"c0", "search", none⟩, ⟨"c1", "delete_everything", none⟩]).tool_calls).1
      ∧ ∃ sent ∈ (spawnToolLoop (fun _ _ => LLMResponse.mk (some "listo") [])
            demoRegistryB (some ["search"]) (fun _ => none) (4 + 1) []
            (LLMResponse.mk none
              [⟨"c0", "search", none⟩, ⟨"c1", "delete_everything", none⟩])).2,
          Msg.tool "c1" (denialMessage "delete_everything") ∈ sent) := by
  refine ⟨by decide, by decide, by decide, ?_⟩
  exact spawn_denial_string_passed_to_next_chat (fun _ _ => LLMResponse.mk (some "listo") [])
    demoRegistryB ["search"] (fun _ => none) []
    (LLMResponse.mk none [⟨"c0", "search", none⟩, ⟨"c1", "delete_everything", none⟩])
    ⟨"c1", "delete_everything", none⟩ 4 (by decide) (by decide) (by decide)

/-- C5 counterexample: the synthesized denial string is the Spanish
`[DENEGADO] ...` of agent_spawner.py line 378, not the literal
`[DENIED] capability <sq><name><sq> not permitted for this role` the claim states. -/
theorem denial_marker_is_spanish_not_DENIED :
    (spawnRound demoRegistryB (some ["search"]) (fun _ => none)
        [⟨"call1", "delete_everything", none⟩]).1
      = [Msg.tool "call1" (denialMessage "delete_everything")]
    ∧ denialMessage "delete_everything"
        ≠ "[DENIED] capability " ++ sQuote ++ "delete_everything" ++ sQuote
            ++ " not permitted for this role" := by
  refine ⟨rfl, by decide⟩

/-- C8: `MCPRouter.execute` is a total function into strings — an unknown name
yields the descriptive not-found string, a tool that raises yields the
descriptive error string, and a successful invocation yields the tool's
result. -/
theorem mcp_execute_never_raises_returns_string
    (r : MCPRegistry) (tool_name : String) (args : Args) :
    (dictLookup r tool_name = none →
      MCPRouter.execute r tool_name args
        = "Error: herramienta " ++ sQuote ++ tool_name ++ sQuote ++ " no encontrada.")
    ∧ (∀ t : MCPTool, dictLookup r tool_name = some t →
        (∀ s, t.fn args = Except.ok s → MCPRouter.execute r tool_name args = s)
        ∧ (∀ e, t.fn args = Except.error e →
            MCPRouter.execute r tool_name args
              = "Error ejecutando " ++ sQuote ++ tool_name ++ sQuote ++ ": " ++ e)) := by
  constructor
  · intro h
    unfold MCPRouter.execute
    rw [h]
  · intro t ht
    constructor
    · intro s hs
      simp [MCPRouter.execute, ht, hs]
    · intro e he
      simp [MCPRouter.execute, ht, he]

/-- A registry built through `MCPRouter.register` with a failing and a
succeeding tool, for the C8 witness. -/
def demoRegistryErr : MCPRegistry :=
  MCPRouter.register
    (MCPRouter.register [] "ferr" "always fails" "" (fun _ => Except.error "boom"))
    "fok" "always succeeds" "" (fun _ => Except.ok "bien")

/-- Witness for C8: all three cases at concrete inputs. -/
theorem mcp_execute_never_raises_witness :
    MCPRouter.execute demoRegistryErr "missing" []
      = "Error: herramienta " ++ sQuote ++ "missing" ++ sQuote ++ " no encontrada."
    ∧ MCPRouter.execute demoRegistryErr "fok" [] = "bien"
    ∧ MCPRouter.execute demoRegistryErr "ferr" []
      = "Error ejecutando " ++ sQuote ++ "ferr" ++ sQuote ++ ": boom" :=
  ⟨(mcp_execute_never_raises_returns_string demoRegistryErr "missing" []).1 rfl,
   ((mcp_execute_never_raises_returns_string demoRegistryErr "fok" []).2
      ⟨fun _ => Except.ok "bien", ⟨"fok", "always succeeds", ""⟩⟩ rfl).1 "bien" rfl,
   ((mcp_execute_never_raises_returns_string demoRegistryErr "ferr" []).2
      ⟨fun _ => Except.error "boom", ⟨"ferr", "always fails", ""⟩⟩ rfl).2 "boom" rfl⟩

/- ------------------------------------------------------------------------
Claims C6 and C7
------------------------------------------------------------------------ -/

/-- C6 (amended): for a sub-agent, the schemas offered to `chat` are all
registered capabilities intersected with the whitelist when the whitelist is
non-null and non-empty, and all registered capabilities when it is null OR
empty; for the primary assistant the offered schemas equal all registered
capabilities only when at most 20 are registered (beyond that the `MAX_TOOLS`
cap truncates — see the counterexample). -/
theorem effective_capability_sets
    (registry : MCPRegistry) (wl : List String) (tools : List ToolSchema)
    (hne : wl ≠ []) (hsmall : (MCPRouter.get_schemas registry).length ≤ 20) :
    spawnSelectTools (some wl) (MCPRouter.get_schemas registry)
        = (MCPRouter.get_schemas registry).filter (fun t => wl.contains t.name)
    ∧ spawnSelectTools none tools = tools
    ∧ spawnSelectTools (some []) tools = tools
    ∧ assistantSelectTools (MCPRouter.get_schemas registry)
        = MCPRouter.get_schemas registry := by
  have hie : wl.isEmpty = false := by
    cases wl with
    | nil => exact absurd rfl hne
    | cons a l => rfl
  refine ⟨?_, rfl, rfl, ?_⟩
  · simp [spawnSelectTools, wlTruthy, hie]
  · unfold assistantSelectTools
    rw [if_neg]
    exact Nat.not_lt.mpr hsmall

/-- A one-tool registry for concrete witnesses. -/
def demoRegistryA : MCPRegistry :=
  MCPRouter.register [] "a" "demo tool" "" (fun _ => Except.ok "ran a")

/-- Witness for C6 at a concrete registry and whitelist. -/
theorem effective_capability_sets_witness :
    (["a"] : List String) ≠ []
    ∧ (MCPRouter.get_schemas demoRegistryA).length ≤ 20
    ∧ (spawnSelectTools (some ["a"]) (MCPRouter.get_schemas demoRegistryA)
        = (MCPRouter.get_schemas demoRegistryA).filter
            (fun t => (["a"] : List String).contains t.name)
      ∧ spawnSelectTools none [⟨"x", "", ""⟩] = [⟨"x", "", ""⟩]
      ∧ spawnSelectTools (some []) [⟨"x", "", ""⟩] = [⟨"x", "", ""⟩]
      ∧ assistantSelectTools (MCPRouter.get_schemas demoRegistryA)
          = MCPRouter.get_schemas demoRegistryA) :=
  ⟨by decide, by decide,
   effective_capability_sets demoRegistryA ["a"] [⟨"x", "", ""⟩] (by decide) (by decide)⟩

/-- 21 registered tools, none of them in the assistant's priority set. -/
def manyRegistry : MCPRegistry :=
  (List.range 21).map
    (fun i => ("tool" ++ toString i,
      ⟨fun _ => Except.ok "", ⟨"tool" ++ toString i, "", ""⟩⟩))

/-- C6 counterexample: with 21 registered capabilities and a null whitelist, the
primary assistant offers only 20 schemas to `chat` (the `MAX_TOOLS = 20` cap of
assistant.py lines 108-124), omitting the registered tool "tool20". -/
theorem assistant_tool_cap_drops_registered_tool :
    (MCPRouter.get_schemas manyRegistry).length = 21
    ∧ (assistantSelectTools (MCPRouter.get_schemas manyRegistry)).length = 20
    ∧ ((assistantSelectTools (MCPRouter.get_schemas manyRegistry)).map
          ToolSchema.name).contains "tool20" = false := by
  refine ⟨rfl, rfl, rfl⟩

/-- C7 (amended): for EVERY chat oracle and loop invocation, `spawn` returns
the tool loop's final response's content, wrapped, with the fallback used only
when the `content` KEY is absent — a content field present but equal to `""`
is returned as the empty string. The final response is the last `chat`
response: the loop hands it back unchanged both when it requests no further
tool calls and when the round limit (fuel 0) is reached. The same
`dict.get`-semantics hold for the primary assistant's final message. -/
theorem spawn_returns_final_content_or_absent_fallback
    (chat : List Msg → Option (List ToolSchema) → LLMResponse)
    (registry : MCPRegistry) (jsonParse : String → Option Args)
    (config : SubAgentConfig) (mission context : String) :
    AgentSpawner.spawn chat registry jsonParse config mission context
      = spawnWrap config.name
          ((spawnFinalResponse chat registry jsonParse config mission context).content.getD
            spawnFallback)
    ∧ (∀ s, (spawnFinalResponse chat registry jsonParse config mission context).content = some s →
        AgentSpawner.spawn chat registry jsonParse config mission context
          = spawnWrap config.name s)
    ∧ ((spawnFinalResponse chat registry jsonParse config mission context).content = none →
        AgentSpawner.spawn chat registry jsonParse config mission context
          = spawnWrap config.name spawnFallback)
    ∧ (∀ (fuel : Nat) (msgs : List Msg) (r : LLMResponse), r.tool_calls = [] →
        (spawnToolLoop chat registry config.tools_whitelist jsonParse fuel msgs r).1 = r)
    ∧ (∀ (msgs : List Msg) (r : LLMResponse),
        (spawnToolLoop chat registry config.tools_whitelist jsonParse 0 msgs r).1 = r)
    ∧ (∀ r : LLMResponse, assistantFinalMessage r = r.content.getD assistantFallback) := by
  refine ⟨rfl, ?_, ?_, ?_, fun _ _ => rfl, fun _ => rfl⟩
  · intro s hs
    unfold AgentSpawner.spawn spawnResult
    rw [hs]
    rfl
  · intro hn
    unfold AgentSpawner.spawn spawnResult
    rw [hn]
    rfl
  · intro fuel msgs r h
    cases fuel with
    | zero => rfl
    | succ n =>
      rw [spawnToolLoop]
      simp [h]

/-- A concrete sub-agent config for the C7 witness. -/
def demoConfig : SubAgentConfig :=
  ⟨"Agente Demo", "demo", "Eres un agente demo.", some ["a"], 4096⟩

/-- Witness for C7: one oracle whose final content is the present-but-empty
string (returned as `""`, not the fallback), one whose content key is absent
(fallback used), and the loop returning a no-tool-calls response unchanged. -/
theorem spawn_returns_final_content_witness :
    AgentSpawner.spawn (fun _ _ => LLMResponse.mk (some "") []) demoRegistryA
        (fun _ => none) demoConfig "mision" ""
      = spawnWrap demoConfig.name ""
    ∧ AgentSpawner.spawn (fun _ _ => LLMResponse.mk none []) demoRegistryA
        (fun _ => none) demoConfig "mision" ""
      = spawnWrap demoConfig.name spawnFallback
    ∧ (spawnToolLoop (fun _ _ => LLMResponse.mk (some "") []) demoRegistryA
          demoConfig.tools_whitelist (fun _ => none) 5 [Msg.user "m"]
          (LLMResponse.mk (some "") [])).1 = LLMResponse.mk (some "") []
    ∧ assistantFinalMessage (LLMResponse.mk (some "") []) = "" :=
  ⟨(spawn_returns_final_content_or_absent_fallback (fun _ _ => LLMResponse.mk (some "") [])
      demoRegistryA (fun _ => none) demoConfig "mision" "").2.1 "" rfl,
   (spawn_returns_final_content_or_absent_fallback (fun _ _ => LLMResponse.mk none [])
      demoRegistryA (fun _ => none) demoConfig "mision" "").2.2.1 rfl,
   (spawn_returns_final_content_or_absent_fallback (fun _ _ => LLMResponse.mk (some "") [])
      demoRegistryA (fun _ => none) demoConfig "mision" "").2.2.2.1 5 [Msg.user "m"]
      (LLMResponse.mk (some "") []) rfl,
   (spawn_returns_final_content_or_absent_fallback (fun _ _ => LLMResponse.mk (some "") [])
      demoRegistryA (fun _ => none) demoConfig "mision" "").2.2.2.2.2
      (LLMResponse.mk (some "") [])⟩

theorem spawnWrap_ne_of_length_ne (n a b : String) (h : a.length ≠ b.length) :
    spawnWrap n a ≠ spawnWrap n b := by
  intro he
  apply h
  have hlen := congrArg String.length he
  simp only [spawnWrap, String.length_append] at hlen
  omega

/-- C7 counterexample: a response whose `content` field is present but equal to
`""` is NOT replaced by the fallback — `dict.get("content", fallback)` falls
back only when the key is absent — contradicting the claim's
"including the case where the content field is present but equal to the empty
string". -/
theorem empty_content_not_replaced_by_fallback :
    assistantFinalMessage ⟨some "", []⟩ = ""
    ∧ ("" : String) ≠ assistantFallback
    ∧ spawnResult "Agente Demo" ⟨some "", []⟩ = spawnWrap "Agente Demo" ""
    ∧ spawnWrap "Agente Demo" "" ≠ spawnWrap "Agente Demo" spawnFallback := by
  refine ⟨rfl, by decide, rfl, ?_⟩
  exact spawnWrap_ne_of_length_ne _ _ _ (by decide)

/- ------------------------------------------------------------------------
Claims C9 and C10
------------------------------------------------------------------------ -/

theorem auto_discover_append (l1 l2 : List (String × PluginModule)) (st : PluginTable) :
    PluginManager.auto_discover (l1 ++ l2) st
      = PluginManager.auto_discover l2 (PluginManager.auto_discover l1 st) :=
  List.foldl_append _ _ _ _

theorem auto_discover_raises_cons (f e : String) (l : List (String × PluginModule))
    (st : PluginTable) :
    PluginManager.auto_discover ((f, PluginModule.raises e) :: l) st
      = PluginManager.auto_discover l st := by
  show PluginManager.auto_discover l
      (if pyStartsWith f "_" = true then st
       else (PluginManager.load_file st (PluginModule.raises e)).1)
    = PluginManager.auto_discover l st
  by_cases hu : pyStartsWith f "_" = true
  · rw [if_pos hu]
  · rw [if_neg hu]
    rfl

theorem auto_discover_invalid_cons (f : String) (l : List (String × PluginModule))
    (st : PluginTable) :
    PluginManager.auto_discover ((f, PluginModule.invalid) :: l) st
      = PluginManager.auto_discover l st := by
  show PluginManager.auto_discover l
      (if pyStartsWith f "_" = true then st
       else (PluginManager.load_file st PluginModule.invalid).1)
    = PluginManager.auto_discover l st
  by_cases hu : pyStartsWith f "_" = true
  · rw [if_pos hu]
  · rw [if_neg hu]
    rfl

theorem auto_discover_preserves_key (l : List (String × PluginModule)) (st : PluginTable)
    (name : String) (h : (dictLookup st name).isSome = true) :
    (dictLookup (PluginManager.auto_discover l st) name).isSome = true := by
  induction l generalizing st with
  | nil => exact h
  | cons p rest ih =>
    show (dictLookup (PluginManager.auto_discover rest
        (if pyStartsWith p.1 "_" = true then st else (PluginManager.load_file st p.2).1))
      name).isSome = true
    apply ih
    by_cases hu : pyStartsWith p.1 "_" = true
    · rw [if_pos hu]; exact h
    · rw [if_neg hu]
      cases p.2 with
      | raises m => exact h
      | invalid => exact h
      | valid k => exact dictLookup_isSome_dictInsert st name k _ h

/-- C9: plugin discovery loads every valid module (a valid module's
`SKILL_NAME` ends up mapped in `_plugins`), a module missing `SKILL_NAME` or
`execute` is skipped without aborting the walk, and a module that raises
while importing changes nothing for its siblings — discovery with the raising file
equals discovery without it. -/
theorem plugin_discovery_valid_loaded_failures_isolated
    (xs ys : List (String × PluginModule)) (st : PluginTable)
    (f e g fname name : String)
    (hval : (fname, PluginModule.valid name) ∈ xs ++ ys)
    (hus : pyStartsWith fname "_" = false) :
    PluginManager.auto_discover (xs ++ (f, PluginModule.raises e) :: ys) st
        = PluginManager.auto_discover (xs ++ ys) st
    ∧ PluginManager.auto_discover (xs ++ (g, PluginModule.invalid) :: ys) st
        = PluginManager.auto_discover (xs ++ ys) st
    ∧ (dictLookup (PluginManager.auto_discover (xs ++ ys) st) name).isSome = true := by
  refine ⟨?_, ?_, ?_⟩
  · rw [auto_discover_append, auto_discover_raises_cons, auto_discover_append]
  · rw [auto_discover_append, auto_discover_invalid_cons, auto_discover_append]
  · obtain ⟨l1, l2, hsplit⟩ := List.append_of_mem hval
    rw [hsplit, auto_discover_append]
    show (dictLookup (PluginManager.auto_discover l2
        (if pyStartsWith fname "_" = true
         then PluginManager.auto_discover l1 st
         else (PluginManager.load_file (PluginManager.auto_discover l1 st)
                (PluginModule.valid name)).1)) name).isSome = true
    rw [hus]
    simp only [Bool.false_eq_true, if_false]
    apply auto_discover_preserves_key
    show (dictLookup (dictInsert (PluginManager.auto_discover l1 st) name
        (PluginModule.valid name)) name).isSome = true
    rw [dictLookup_dictInsert_self]
    rfl

/-- Witness for C9 on a concrete directory listing with an invalid, a raising
and two valid plugin files. -/
theorem plugin_discovery_witness :
    ("good.py", PluginModule.valid "good")
        ∈ ([("aaa.py", PluginModule.invalid)] ++ [("good.py", PluginModule.valid "good")])
    ∧ pyStartsWith "good.py" "_" = false
    ∧ (PluginManager.auto_discover
          ([("aaa.py", PluginModule.invalid)]
            ++ ("bad.py", PluginModule.raises "boom") :: [("good.py", PluginModule.valid "good")]) []
        = PluginManager.auto_discover
            ([("aaa.py", PluginModule.invalid)] ++ [("good.py", PluginModule.valid "good")]) []
      ∧ PluginManager.auto_discover
          ([("aaa.py", PluginModule.invalid)]
            ++ ("ugly.py", PluginModule.invalid) :: [("good.py", PluginModule.valid "good")]) []
        = PluginManager.auto_discover
            ([("aaa.py", PluginModule.invalid)] ++ [("good.py", PluginModule.valid "good")]) []
      ∧ (dictLookup (PluginManager.auto_discover
            ([("aaa.py", PluginModule.invalid)] ++ [("good.py", PluginModule.valid "good")]) [])
          "good").isSome = true) :=
  ⟨by decide, by decide,
   plugin_discovery_valid_loaded_failures_isolated
     [("aaa.py", PluginModule.invalid)] [("good.py", PluginModule.valid "good")] []
     "bad.py" "boom" "ugly.py" "good.py" "good" (by decide) (by decide)⟩

/-- C10: when the derived plugin filename (a `.py` name passing the character
check) already exists in the plugins directory, `install_from_github` returns
the already-exists message, performs no fetch, no file write and no load, and
leaves the file list and the loaded-plugin table unchanged. -/
theorem install_from_github_existing_is_pure_message
    (st : PMState) (fetch : String → Except String String)
    (importContent : String → PluginModule) (url : String)
    (hpy : pyEndsWith (githubRawUrl url) ".py" = true)
    (hvalid : validPluginFilename (derivedFilename (githubRawUrl url)) = true)
    (hexists : st.files.contains (derivedFilename (githubRawUrl url)) = true) :
    PluginManager.install_from_github st fetch importContent url
      = (alreadyExistsMessage (derivedFilename (githubRawUrl url)), st, []) := by
  unfold PluginManager.install_from_github
  rw [hpy, hvalid, hexists]
  rw [if_neg (by simp), if_neg (by simp), if_pos rfl]

/-- The plugin-manager state for the C10 witness: `example_plugin.py` is
already on disk. -/
def demoInstallState : PMState := ⟨["example_plugin.py"], [("example", PluginModule.valid "example")]⟩

/-- Witness for C10 at a concrete blob URL whose derived filename exists. -/
theorem install_from_github_existing_witness :
    pyEndsWith (githubRawUrl "https://github.com/u/r/blob/main/example_plugin.py") ".py" = true
    ∧ validPluginFilename
        (derivedFilename (githubRawUrl "https://github.com/u/r/blob/main/example_plugin.py")) = true
    ∧ demoInstallState.files.contains
        (derivedFilename (githubRawUrl "https://github.com/u/r/blob/main/example_plugin.py")) = true
    ∧ PluginManager.install_from_github demoInstallState (fun _ => Except.error "offline")
        (fun _ => PluginModule.invalid) "https://github.com/u/r/blob/main/example_plugin.py"
      = (alreadyExistsMessage
          (derivedFilename (githubRawUrl "https://github.com/u/r/blob/main/example_plugin.py")),
         demoInstallState, []) :=
  ⟨by decide, by decide, by decide,
   install_from_github_existing_is_pure_message demoInstallState (fun _ => Except.error "offline")
     (fun _ => PluginModule.invalid) "https://github.com/u/r/blob/main/example_plugin.py"
     (by decide) (by decide) (by decide)⟩
